import Mathlib

/-!
Shallow embedding of the `gpuinfo` package (src/gpuinfo/gpu_info.py and
src/gpuinfo/gpu_stat.py).

The Python code orchestrates three external facilities:
  * the NVML driver (pynvml) for telemetry,
  * the process facilities (`nvidia-smi` subprocess + psutil) for discovering
    and terminating GPU-bound processes,
  * the optional torch runtime for cache reclamation.
Each facility is modelled as an explicit environment record; the observable
side effects of a run (process enumeration, termination requests, cache
operations) are collected into an event trace.  Console `print` calls are not
modelled: they carry no program state.
-/

namespace GpuInfo

/-- Errors raised by psutil operations: `psutil.NoSuchProcess` and
`psutil.AccessDenied` (the two classes caught in `_terminate_gpu_processes`). -/
inductive PsutilErr
  | noSuchProcess
  | accessDenied
  deriving DecidableEq, Repr

/-- A Python exception escaping a modelled function (only `ValueError` can:
from the index check in `free_up_gpu`, or from `int(pid)` on a
non-numeric line). -/
inductive PyError
  | valueError (msg : String)
  deriving DecidableEq, Repr

/-- Per-process outcome classification, matching the four print branches of
`_terminate_gpu_processes`. -/
inductive ProcResult
  | terminated
  | skippedExempt
  | notFound
  | permissionDenied
  deriving DecidableEq, Repr

/-- One outcome per discovered PID (the spec's ProcessOutcome record). -/
structure ProcessOutcome where
  pid : Nat
  name : Option String
  result : ProcResult
  deriving DecidableEq, Repr

/-- The individual torch cache-reclamation calls made by `_clear_gpu_cache`,
in source order. -/
inductive CacheStep
  | emptyCache
  | deviceEmptyCache (i : Nat)
  | resetPeak (i : Nat)
  | resetMaxAlloc (i : Nat)
  | resetMaxCached (i : Nat)
  deriving DecidableEq, Repr

/-- Observable side effects of a run. -/
inductive Event
  | enumerate (i : Nat)
  | termRequest (pid : Nat)
  | cacheStep (s : CacheStep)
  deriving DecidableEq, Repr

/-- Result of the cache-reclamation phase (the spec's CacheReclaimer result). -/
inductive CacheResult
  | unavailable
  | cleared
  | reclaimFailed (msg : String)
  deriving DecidableEq, Repr

/-- Behaviour of one OS process as seen through psutil: the outcome of
`psutil.Process(pid)` construction, of `process.name()`, and of
`process.terminate()` (`none` = the termination signal is accepted). -/
structure ProcBehavior where
  lookup : Except PsutilErr Unit
  name : Except PsutilErr String
  terminate : Option PsutilErr
  deriving Repr

/-- Behaviour of the torch runtime: the live `torch.cuda.is_available()`
probe and each cache call, which either succeeds (`none`) or raises a
`RuntimeError` with a message (`some msg`). -/
structure TorchEnv where
  cuda_is_available : Bool
  empty_cache : Option String
  device_empty_cache : Nat → Option String
  reset_peak_memory_stats : Nat → Option String
  reset_max_memory_allocated : Nat → Option String
  reset_max_memory_cached : Nat → Option String

/-- The external world of `free_up_gpu`: `query i` is the
`nvidia-smi --query-compute-apps=pid` subprocess for device `i`
(`.error` = `subprocess.CalledProcessError`, `.ok` = captured stdout),
`proc` gives the psutil behaviour of each PID, `torch` the torch runtime. -/
structure SysEnv where
  query : Nat → Except String String
  proc : Nat → ProcBehavior
  torch : TorchEnv

/-- Telemetry snapshot of one GPU (src/gpuinfo/gpu_stat.py, class GPUStat).
Python floats are modelled as rationals; the byte→GB divisions are exact. -/
structure GPUStat where
  index : Nat
  name : String
  total_memory : Rat
  used_memory : Rat
  free_memory : Rat
  temperature : Rat
  gpu_utilization : Rat
  memory_utilization : Rat
  fan_speed : Option Rat
  deriving DecidableEq, Repr

/-- The pydantic model state of class GPUInfo (its four fields). -/
structure GPUInfoState where
  gpu_count : Nat
  gpus : List GPUStat
  torch_available : Bool
  torch_cuda_available : Bool
  deriving DecidableEq, Repr

/-- Raw counters reported by the NVML driver for one device; `fan_speed` is
`.error` when `nvmlDeviceGetFanSpeed` raises `NVMLError` (caught in the
source and turned into `None`). -/
structure NvmlDeviceData where
  name : String
  mem_total : Nat
  mem_used : Nat
  mem_free : Nat
  util_gpu : Nat
  util_mem : Nat
  temperature : Nat
  fan_speed : Except Unit Nat

/-- The NVML driver facility: `init` is `nvmlInit`, `device i` bundles the
per-device queries (handle, name, memory, utilization, temperature), any of
which may raise `NVMLError` (uncaught inside `get_gpu_stats`). -/
structure NvmlEnv where
  init : Except String Unit
  device : Nat → Except String NvmlDeviceData

/-- `DEFAULT_EXEMPT_PROCESSES` (src/gpuinfo/gpu_info.py line 21). -/
def DEFAULT_EXEMPT_PROCESSES : List String :=
  ["/usr/lib/xorg/Xorg", "/usr/bin/gnome-shell", "warp-terminal"]

/-- Python `str.strip()` with no argument: remove whitespace from both ends
(over the character list of the string). -/
def pyStrip (l : List Char) : List Char :=
  ((l.dropWhile Char.isWhitespace).reverse.dropWhile Char.isWhitespace).reverse

/-- Python `str.split('\n')`: split on every newline; the empty string
yields `[""]`. -/
def pySplitNl : List Char → List (List Char)
  | [] => [[]]
  | c :: rest =>
    let r := pySplitNl rest
    if c = '\n' then [] :: r
    else
      match r with
      | [] => [[c]]
      | h :: t => (c :: h) :: t

/-- Numeric value of a digit string (most significant digit first). -/
def digitsToNat (l : List Char) : Nat :=
  l.foldl (fun a c => a * 10 + (c.toNat - 48)) 0

/-- Python `int(s)` on the PID strings emitted by `nvidia-smi`: a non-empty
all-digit string parses to its value; anything else raises `ValueError`
(modelled as `none`). -/
def pyInt? (l : List Char) : Option Nat :=
  if !l.isEmpty && l.all Char.isDigit then some (digitsToNat l) else none

/-- Outcome classification of a caught psutil exception, by the two
`except` clauses of the per-PID loop body. -/
def outcomeOfErr (pid : Nat) (n : Option String) : PsutilErr → ProcessOutcome
  | .noSuchProcess => ⟨pid, n, .notFound⟩
  | .accessDenied => ⟨pid, n, .permissionDenied⟩

/-- The body of the per-PID loop in `_terminate_gpu_processes`
(lines 160-170): construct `psutil.Process(pid)`, resolve its name, skip it
if the name is in `exempt_processes`, otherwise call `terminate()`;
`NoSuchProcess`/`AccessDenied` anywhere in the body select the corresponding
outcome.  Returns the outcome and the emitted events. -/
def pidStep (env : SysEnv) (exempt_processes : List String) (pid : Nat) :
    ProcessOutcome × List Event :=
  match (env.proc pid).lookup with
  | .error e => (outcomeOfErr pid none e, [])
  | .ok _ =>
    match (env.proc pid).name with
    | .error e => (outcomeOfErr pid none e, [])
    | .ok n =>
      if n ∈ exempt_processes then
        (⟨pid, some n, .skippedExempt⟩, [])
      else
        match (env.proc pid).terminate with
        | none => (⟨pid, some n, .terminated⟩, [.termRequest pid])
        | some e => (outcomeOfErr pid (some n) e, [.termRequest pid])

/-- The `for pid in pids` loop of `_terminate_gpu_processes` (lines 158-170):
empty lines are skipped by `if pid:`; a non-numeric line makes `int(pid)`
raise an uncaught `ValueError`; otherwise the per-PID body runs.  Returns the
events emitted so far and either the outcome list or the escaping error. -/
def reapLoop (env : SysEnv) (exempt_processes : List String) :
    List (List Char) → List Event × Except PyError (List ProcessOutcome)
  | [] => ([], .ok [])
  | line :: rest =>
    if line.isEmpty then reapLoop env exempt_processes rest
    else
      match pyInt? line with
      | none =>
        ([], .error (.valueError ("invalid literal for int: " ++ String.mk line)))
      | some pid =>
        let s := pidStep env exempt_processes pid
        let r := reapLoop env exempt_processes rest
        (s.2 ++ r.1, r.2.map (fun os => s.1 :: os))

/-- `GPUInfo._terminate_gpu_processes` (lines 142-172): run the `nvidia-smi`
enumeration; on `CalledProcessError` print and return (no outcomes); else
split `stdout.strip()` on newlines and run the loop. -/
def terminate_gpu_processes (env : SysEnv) (gpu_index : Nat)
    (exempt_processes : List String) :
    List Event × Except PyError (List ProcessOutcome) :=
  match env.query gpu_index with
  | .error _ => ([.enumerate gpu_index], .ok [])
  | .ok stdout =>
    let r := reapLoop env exempt_processes (pySplitNl (pyStrip stdout.data))
    (.enumerate gpu_index :: r.1, r.2)

/-- The five torch cache calls of `_clear_gpu_cache` (lines 185-190) with
their environment-determined results, in source order. -/
def cacheOps (t : TorchEnv) (i : Nat) : List (CacheStep × Option String) :=
  [(.emptyCache, t.empty_cache),
   (.deviceEmptyCache i, t.device_empty_cache i),
   (.resetPeak i, t.reset_peak_memory_stats i),
   (.resetMaxAlloc i, t.reset_max_memory_allocated i),
   (.resetMaxCached i, t.reset_max_memory_cached i)]

/-- Sequential execution of fallible steps inside one `try` block: each step
is attempted in order; the first `RuntimeError` stops the sequence and is
returned; completed steps stay in the trace. -/
def runSteps : List (CacheStep × Option String) → List Event × Option String
  | [] => ([], none)
  | (s, none) :: rest =>
    let r := runSteps rest
    (.cacheStep s :: r.1, r.2)
  | (s, some m) :: _ => ([.cacheStep s], some m)

/-- `GPUInfo._clear_gpu_cache` (lines 174-195): if the stored
`torch_available`/`torch_cuda_available` flags and the live
`torch.cuda.is_available()` probe all hold, run the five cache calls inside
`try/except RuntimeError`; otherwise do nothing. -/
def clear_gpu_cache (st : GPUInfoState) (t : TorchEnv) (gpu_index : Nat) :
    List Event × CacheResult :=
  if st.torch_available && st.torch_cuda_available then
    if t.cuda_is_available then
      let r := runSteps (cacheOps t gpu_index)
      (r.1, match r.2 with
            | some m => .reclaimFailed m
            | none => .cleared)
    else ([], .unavailable)
  else ([], .unavailable)

/-- The `ValueError` message of the index check (line 215). -/
def invalidIndexMsg (count : Nat) : String :=
  "Invalid GPU index. Must be between 0 and " ++ toString ((count : Int) - 1)

/-- `GPUInfo.free_up_gpu` (lines 197-227): validate the index (raising
`ValueError` before any side effect), then optionally run process
termination, then optionally run cache clearing.  Returns the (unmodified)
object state, the event trace, and either the collected results or the
escaping exception. -/
def free_up_gpu (st : GPUInfoState) (env : SysEnv) (gpu_index : Int)
    (terminate_processes clear_cache : Bool) (exempt_processes : List String) :
    GPUInfoState × List Event ×
      Except PyError (List ProcessOutcome × Option CacheResult) :=
  if gpu_index < 0 ∨ gpu_index ≥ (st.gpu_count : Int) then
    (st, [], .error (.valueError (invalidIndexMsg st.gpu_count)))
  else
    let i := gpu_index.toNat
    let p := if terminate_processes then
        terminate_gpu_processes env i exempt_processes
      else ([], .ok [])
    match p.2 with
    | .error e => (st, p.1, .error e)
    | .ok os =>
      let c := if clear_cache then
          let r := clear_gpu_cache st env.torch i
          (r.1, some r.2)
        else ([], none)
      (st, p.1 ++ c.1, .ok (os, c.2))

/-- Construction of one `GPUStat` from the driver counters
(lines 92-102): memory is converted from bytes to GB by dividing by
`1024 ** 3`; a failed fan-speed query becomes `None`. -/
def mkStat (i : Nat) (d : NvmlDeviceData) : GPUStat :=
  { index := i
    name := d.name
    total_memory := (d.mem_total : Rat) / 1024 ^ 3
    used_memory := (d.mem_used : Rat) / 1024 ^ 3
    free_memory := (d.mem_free : Rat) / 1024 ^ 3
    temperature := (d.temperature : Rat)
    gpu_utilization := (d.util_gpu : Rat)
    memory_utilization := (d.util_mem : Rat)
    fan_speed := match d.fan_speed with
                 | .ok v => some (v : Rat)
                 | .error _ => none }

/-- The `for i in range(self.gpu_count)` loop of `get_gpu_stats`
(lines 79-102), started at index `i` with `n` iterations left; an
`NVMLError` from any per-device query escapes the loop. -/
def statsLoop (env : NvmlEnv) : Nat → Nat → Except String (List GPUStat)
  | _, 0 => .ok []
  | i, Nat.succ n =>
    match env.device i with
    | .error e => .error e
    | .ok d => (statsLoop env (i + 1) n).map (fun l => mkStat i d :: l)

/-- `GPUInfo.get_gpu_stats` (lines 69-108): `nvmlInit`, then the per-device
loop over `range(self.gpu_count)` (the `finally` shutdown has no modelled
effect). -/
def get_gpu_stats (st : GPUInfoState) (env : NvmlEnv) :
    Except String (List GPUStat) :=
  match env.init with
  | .error e => .error e
  | .ok _ => statsLoop env 0 st.gpu_count

/-- The torch probes used by `check_torch_availability`:
`importlib.util.find_spec` presence and `torch.cuda.is_available()`. -/
structure TorchProbe where
  find_spec : Bool
  cuda_is_available : Bool

/-- `GPUInfo.check_torch_availability` (lines 110-118): a state-modifying
method, included to show which methods do write the object fields. -/
def check_torch_availability (st : GPUInfoState) (p : TorchProbe) :
    GPUInfoState :=
  if p.find_spec then
    { st with torch_available := true, torch_cuda_available := p.cuda_is_available }
  else st

/-- The first `RuntimeError` message among the step results, if any — the
error a sequential `try` block stops at. -/
def firstErr : List (Option String) → Option String
  | [] => none
  | none :: rest => firstErr rest
  | some m :: _ => some m

/-- How many steps a sequential `try` block attempts: all of them if none
fails, otherwise every step up to and including the first failing one. -/
def stepsAttempted : List (Option String) → Nat
  | [] => 0
  | none :: rest => stepsAttempted rest + 1
  | some _ :: _ => 1

/-- Whether an event is a cache-reclamation action. -/
def Event.isCache : Event → Bool
  | .cacheStep _ => true
  | _ => false

/-!  Concrete fixtures used by the witness theorems. -/

/-- A torch runtime where every cache call succeeds. -/
def okTorch : TorchEnv :=
  ⟨true, none, fun _ => none, fun _ => none, fun _ => none, fun _ => none⟩

/-- A sample world: three PIDs bound to every device; 101 resolves to
`warp-terminal`, 202 to `train.bin`, everything else has exited. -/
def sampleEnv : SysEnv :=
  { query := fun _ => .ok "101\n202\n303"
    proc := fun pid =>
      if pid = 101 then ⟨.ok (), .ok "warp-terminal", none⟩
      else if pid = 202 then ⟨.ok (), .ok "train.bin", none⟩
      else ⟨.error .noSuchProcess, .error .noSuchProcess, none⟩
    torch := okTorch }

/-- A sample object state: two GPUs, torch and CUDA available. -/
def sampleState : GPUInfoState := ⟨2, [], true, true⟩

/-- A torch runtime whose device-scoped cache release raises a
`RuntimeError`. -/
def failTorch : TorchEnv :=
  ⟨true, none, fun _ => some "CUDA error: device busy",
   fun _ => none, fun _ => none, fun _ => none⟩

/-- A sample driver world: `nvmlInit` succeeds and every device query
succeeds with fixed counters. -/
def sampleNvml : NvmlEnv :=
  { init := .ok ()
    device := fun _ =>
      .ok ⟨"TestGPU", 8 * 1024 ^ 3, 2 * 1024 ^ 3, 6 * 1024 ^ 3, 30, 20, 65,
           .ok 40⟩ }

/-- An environment whose only process resolves to the name
`Warp-Terminal` and accepts termination. -/
def warpEnv : SysEnv :=
  { query := fun _ => .ok "42"
    proc := fun _ => ⟨.ok (), .ok "Warp-Terminal", none⟩
    torch := okTorch }

/-!  Helper lemmas about the per-PID step and the reaping loop. -/

lemma outcomeOfErr_pid (pid : Nat) (n : Option String) (e : PsutilErr) :
    (outcomeOfErr pid n e).pid = pid := by
  cases e <;> rfl

lemma pidStep_pid (env : SysEnv) (ex : List String) (pid : Nat) :
    (pidStep env ex pid).1.pid = pid := by
  unfold pidStep
  split
  · apply outcomeOfErr_pid
  · split
    · apply outcomeOfErr_pid
    · split
      · rfl
      · split
        · rfl
        · apply outcomeOfErr_pid

lemma pidStep_events (env : SysEnv) (ex : List String) (pid : Nat) :
    ∀ e ∈ (pidStep env ex pid).2, e = .termRequest pid := by
  unfold pidStep
  split
  · simp
  · split
    · simp
    · split
      · simp
      · split <;> simp

lemma pidStep_exempt (env : SysEnv) (ex : List String) (pid : Nat) (n : String)
    (hl : (env.proc pid).lookup = .ok ())
    (hn : (env.proc pid).name = .ok n) (hx : n ∈ ex) :
    pidStep env ex pid = (⟨pid, some n, .skippedExempt⟩, []) := by
  unfold pidStep
  rw [hl]
  dsimp only
  rw [hn]
  dsimp only
  rw [if_pos hx]

lemma pidStep_skipped_iff (env : SysEnv) (ex : List String) (pid : Nat)
    (n : String) (hl : (env.proc pid).lookup = .ok ())
    (hn : (env.proc pid).name = .ok n) :
    ((pidStep env ex pid).1.result = .skippedExempt) ↔ n ∈ ex := by
  unfold pidStep
  rw [hl]
  dsimp only
  rw [hn]
  dsimp only
  by_cases hx : n ∈ ex
  · rw [if_pos hx]
    simpa using hx
  · rw [if_neg hx]
    cases hterm : (env.proc pid).terminate with
    | none => simpa using hx
    | some e => cases e <;> simpa [outcomeOfErr] using hx

lemma reapLoop_exempt (env : SysEnv) (ex : List String) (pid : Nat) (n : String)
    (hl : (env.proc pid).lookup = .ok ())
    (hn : (env.proc pid).name = .ok n) (hx : n ∈ ex) :
    ∀ lines : List (List Char),
      (∀ os, (reapLoop env ex lines).2 = .ok os →
        ∀ o ∈ os, o.pid = pid → o.result = .skippedExempt) ∧
      Event.termRequest pid ∉ (reapLoop env ex lines).1 := by
  intro lines
  induction lines with
  | nil =>
    refine ⟨?_, ?_⟩
    · intro os h o ho _
      simp only [reapLoop] at h
      injection h with h
      subst h
      cases ho
    · simp [reapLoop]
  | cons line rest ih =>
    obtain ⟨ih1, ih2⟩ := ih
    by_cases hline : line.isEmpty
    · constructor
      · intro os h
        simp only [reapLoop, hline, if_true] at h
        exact ih1 os h
      · intro hmem
        simp only [reapLoop, hline, if_true] at hmem
        exact ih2 hmem
    · cases hpi : pyInt? line with
      | none =>
        constructor
        · intro os h
          simp only [reapLoop, hline, hpi] at h
          cases h
        · intro hmem
          simp only [reapLoop, hline, hpi] at hmem
          cases hmem
      | some q =>
        constructor
        · intro os h o ho hp
          simp only [reapLoop, hline, hpi] at h
          cases hr : (reapLoop env ex rest).2 with
          | error e => rw [hr] at h; cases h
          | ok os2 =>
            rw [hr] at h
            simp only [Except.map] at h
            injection h with h
            subst h
            cases ho with
            | head =>
              have hq : q = pid := (pidStep_pid env ex q).symm.trans hp
              subst hq
              rw [pidStep_exempt env ex q n hl hn hx]
            | tail b hm =>
              exact ih1 os2 hr o hm hp
        · intro hmem
          simp only [reapLoop, hline, hpi] at hmem
          rcases List.mem_append.mp hmem with hmem | hmem
          · by_cases hq : q = pid
            · subst hq
              rw [pidStep_exempt env ex q n hl hn hx] at hmem
              cases hmem
            · have he := pidStep_events env ex q _ hmem
              injection he with he
              exact hq he.symm
          · exact ih2 hmem

lemma runSteps_eq (l : List (CacheStep × Option String)) :
    runSteps l =
      ((l.map (fun p => Event.cacheStep p.1)).take
         (stepsAttempted (l.map Prod.snd)),
       firstErr (l.map Prod.snd)) := by
  induction l with
  | nil => rfl
  | cons p rest ih =>
    obtain ⟨s, o⟩ := p
    cases o with
    | none => simp [runSteps, firstErr, stepsAttempted, ih]
    | some m => simp [runSteps, firstErr, stepsAttempted]

lemma reapLoop_events_not_cache (env : SysEnv) (ex : List String) :
    ∀ lines : List (List Char),
      ∀ e ∈ (reapLoop env ex lines).1, e.isCache = false := by
  intro lines
  induction lines with
  | nil => simp [reapLoop]
  | cons line rest ih =>
    by_cases hline : line.isEmpty
    · intro e he
      simp only [reapLoop, hline, if_true] at he
      exact ih e he
    · cases hpi : pyInt? line with
      | none => simp [reapLoop, hline, hpi]
      | some q =>
        intro e he
        simp only [reapLoop, hline, hpi] at he
        rcases List.mem_append.mp he with hm | hm
        · rw [pidStep_events env ex q e hm]
          rfl
        · exact ih e hm

lemma terminate_events_not_cache (env : SysEnv) (i : Nat) (ex : List String) :
    ∀ e ∈ (terminate_gpu_processes env i ex).1, e.isCache = false := by
  unfold terminate_gpu_processes
  cases hq : env.query i with
  | error m => simp [Event.isCache]
  | ok s =>
    dsimp only
    intro e he
    cases he with
    | head => rfl
    | tail b hm => exact reapLoop_events_not_cache env ex _ e hm

lemma runSteps_events_cache (l : List (CacheStep × Option String)) :
    ∀ e ∈ (runSteps l).1, e.isCache = true := by
  induction l with
  | nil => simp [runSteps]
  | cons p rest ih =>
    obtain ⟨s, o⟩ := p
    cases o with
    | none =>
      intro e he
      simp only [runSteps] at he
      cases he with
      | head => rfl
      | tail b hm => exact ih e hm
    | some m => simp [runSteps, Event.isCache]

lemma clear_events_cache (st : GPUInfoState) (t : TorchEnv) (i : Nat) :
    ∀ e ∈ (clear_gpu_cache st t i).1, e.isCache = true := by
  unfold clear_gpu_cache
  split
  · split
    · dsimp only
      exact runSteps_events_cache (cacheOps t i)
    · simp
  · simp

lemma statsLoop_ok (env : NvmlEnv) :
    ∀ n i : Nat, (∀ j, j < n → ∃ d, env.device (i + j) = .ok d) →
      ∃ l, statsLoop env i n = .ok l ∧ l.length = n ∧
        ∀ k (hk : k < l.length), (l.get ⟨k, hk⟩).index = i + k := by
  intro n
  induction n with
  | zero =>
    intro i _
    exact ⟨[], rfl, rfl, fun k hk => absurd hk (by simp)⟩
  | succ m ih =>
    intro i h
    obtain ⟨d, hd⟩ := h 0 (Nat.succ_pos m)
    rw [Nat.add_zero] at hd
    obtain ⟨l, hl1, hl2, hl3⟩ := ih (i + 1) (fun j hj => by
      obtain ⟨d2, hd2⟩ := h (j + 1) (Nat.succ_lt_succ hj)
      exact ⟨d2, by rw [← hd2]; ring_nf⟩)
    refine ⟨mkStat i d :: l, ?_, ?_, ?_⟩
    · simp only [statsLoop, hd]
      rw [hl1]
      rfl
    · simp [hl2]
    · intro k hk
      cases k with
      | zero => simp [mkStat]
      | succ k2 =>
        have hk2 : k2 < l.length := by
          simpa using Nat.lt_of_succ_lt_succ hk
        have := hl3 k2 hk2
        simpa [Nat.add_assoc, Nat.add_comm 1 k2] using this

lemma pyInt?_of_isEmpty (l : List Char) (h : l.isEmpty = true) :
    pyInt? l = none := by
  unfold pyInt?
  simp [h]

lemma reapLoop_complete (env : SysEnv) (ex : List String) :
    ∀ lines : List (List Char),
      (∀ l ∈ lines, l.isEmpty = false → (pyInt? l).isSome) →
      ∃ os, (reapLoop env ex lines).2 = .ok os ∧
        os.map ProcessOutcome.pid = lines.filterMap pyInt? ∧
        os.length = (lines.filter (fun l => !l.isEmpty)).length := by
  intro lines
  induction lines with
  | nil =>
    intro _
    exact ⟨[], rfl, rfl, rfl⟩
  | cons line rest ih =>
    intro h
    obtain ⟨os, ho1, ho2, ho3⟩ :=
      ih (fun l hl he => h l (List.mem_cons_of_mem _ hl) he)
    by_cases hline : line.isEmpty
    · refine ⟨os, ?_, ?_, ?_⟩
      · simp only [reapLoop, hline, if_true]
        exact ho1
      · rw [ho2, List.filterMap_cons, pyInt?_of_isEmpty line hline]
      · rw [ho3]
        simp [List.filter_cons, hline]
    · have hs : (pyInt? line).isSome :=
        h line (List.mem_cons_self line rest) (by simpa using hline)
      obtain ⟨q, hq⟩ := Option.isSome_iff_exists.mp hs
      refine ⟨(pidStep env ex q).1 :: os, ?_, ?_, ?_⟩
      · simp only [reapLoop, hline, hq, if_neg]
        rw [ho1]
        rfl
      · rw [List.map_cons, ho2, List.filterMap_cons, hq, pidStep_pid]
      · rw [List.length_cons, ho3]
        simp [List.filter_cons, hline]

/-!  Claim theorems. -/

/-- C1: for every `deviceIndex` outside `[0, count())`, `free_up_gpu` raises
`ValueError` with the invalid-index message and performs no side effect:
the event trace is empty, so no process enumeration, termination request or
cache step ran before (or after) the index check. -/
theorem free_up_gpu_invalid_index (st : GPUInfoState) (env : SysEnv)
    (gpu_index : Int) (tp cc : Bool) (ex : List String)
    (h : gpu_index < 0 ∨ gpu_index ≥ (st.gpu_count : Int)) :
    free_up_gpu st env gpu_index tp cc ex =
      (st, [], .error (.valueError (invalidIndexMsg st.gpu_count))) := by
  unfold free_up_gpu
  rw [if_pos h]

/-- C1 witness: `free_up_gpu(5)` on a two-GPU state fails with the
invalid-index `ValueError` and an empty event trace. -/
theorem free_up_gpu_invalid_index_witness :
    free_up_gpu sampleState sampleEnv 5 true true [] =
      (sampleState, [],
       .error (.valueError (invalidIndexMsg sampleState.gpu_count))) :=
  free_up_gpu_invalid_index sampleState sampleEnv 5 true true []
    (Or.inr (by decide))

/-- C9: `free_up_gpu` never modifies the `GPUInfo` object state: whichever
branch is taken (invalid index, escaping `ValueError` from the loop, or
normal completion), the returned state equals the input state, so
`gpu_count`, `gpus`, `torch_available` and `torch_cuda_available` are
unchanged. -/
theorem free_up_gpu_state_frame (st : GPUInfoState) (env : SysEnv)
    (gpu_index : Int) (tp cc : Bool) (ex : List String) :
    (free_up_gpu st env gpu_index tp cc ex).1 = st := by
  unfold free_up_gpu
  split
  · rfl
  · split
    · dsimp only
      cases (terminate_gpu_processes env gpu_index.toNat ex).2 <;> rfl
    · rfl

/-- C5: if the torch runtime is absent (`torch_available = false`), or CUDA
was not detected for it (`torch_cuda_available = false`), or the live
availability probe reports no accelerated backend, then `_clear_gpu_cache`
performs no cache step (empty trace) and reports `Unavailable` rather than
an error. -/
theorem clear_gpu_cache_unavailable (st : GPUInfoState) (t : TorchEnv)
    (i : Nat)
    (h : st.torch_available = false ∨ st.torch_cuda_available = false ∨
         t.cuda_is_available = false) :
    clear_gpu_cache st t i = ([], .unavailable) := by
  unfold clear_gpu_cache
  rcases h with h | h | h
  · simp [h]
  · simp [h]
  · simp [h]

/-- C5 witness: with torch absent, the cache phase on device 3 is
`Unavailable` with no steps executed. -/
theorem clear_gpu_cache_unavailable_witness :
    clear_gpu_cache ⟨0, [], false, false⟩ okTorch 3 = ([], .unavailable) :=
  clear_gpu_cache_unavailable ⟨0, [], false, false⟩ okTorch 3 (Or.inl rfl)

/-- C2: one outcome per discovered PID: when the enumeration succeeds and
every discovered (non-empty) line is a PID numeral, the loop never raises:
it returns an outcome list whose projection to PIDs is exactly the list of
discovered PIDs in discovery order (none dropped, none duplicated) and whose
length is the discovered-line count — for every behaviour of the individual
processes (exited, permission denied, terminable), so an individual failure
never aborts the loop. -/
theorem terminate_one_outcome_per_pid (env : SysEnv) (i : Nat)
    (ex : List String) (s : String)
    (hq : env.query i = .ok s)
    (hp : ∀ l ∈ pySplitNl (pyStrip s.data), l.isEmpty = false →
       (pyInt? l).isSome) :
    ∃ os, (terminate_gpu_processes env i ex).2 = .ok os ∧
      os.map ProcessOutcome.pid =
        (pySplitNl (pyStrip s.data)).filterMap pyInt? ∧
      os.length =
        ((pySplitNl (pyStrip s.data)).filter (fun l => !l.isEmpty)).length := by
  unfold terminate_gpu_processes
  rw [hq]
  dsimp only
  exact reapLoop_complete env ex (pySplitNl (pyStrip s.data)) hp

/-- C2 witness: in the sample world (PIDs 101, 202, 303, of which 303 has
already exited) the outcome PIDs are exactly `[101, 202, 303]`. -/
theorem terminate_one_outcome_per_pid_witness :
    ((terminate_gpu_processes sampleEnv 0 DEFAULT_EXEMPT_PROCESSES).2).map
      (List.map ProcessOutcome.pid) = .ok [101, 202, 303] := by
  obtain ⟨os, h1, h2, h3⟩ := terminate_one_outcome_per_pid sampleEnv 0
    DEFAULT_EXEMPT_PROCESSES "101\n202\n303" rfl (by decide)
  rw [h1]
  dsimp only [Except.map]
  rw [h2]
  rfl

/-- C3: an exempt process is never terminated: if a discovered PID resolves
to a name that is a member of the exemption set, then every outcome recorded
for that PID is `Skipped(exempt)`, and no termination request for it is ever
emitted, whatever the exemption-set content and the rest of the
environment. -/
theorem terminate_exempt_never_terminated (env : SysEnv) (i : Nat)
    (ex : List String) (pid : Nat) (n : String)
    (hl : (env.proc pid).lookup = .ok ())
    (hn : (env.proc pid).name = .ok n) (hx : n ∈ ex) :
    (∀ os, (terminate_gpu_processes env i ex).2 = .ok os →
       ∀ o ∈ os, o.pid = pid → o.result = .skippedExempt) ∧
    Event.termRequest pid ∉ (terminate_gpu_processes env i ex).1 := by
  unfold terminate_gpu_processes
  cases hq : env.query i with
  | error e =>
    refine ⟨?_, ?_⟩
    · intro os h o ho _
      dsimp only at h
      injection h with h
      subst h
      cases ho
    · intro hmem
      dsimp only at hmem
      simp at hmem
  | ok s =>
    obtain ⟨h1, h2⟩ :=
      reapLoop_exempt env ex pid n hl hn hx (pySplitNl (pyStrip s.data))
    refine ⟨?_, ?_⟩
    · intro os h
      dsimp only at h
      exact h1 os h
    · intro hmem
      dsimp only at hmem
      cases hmem with
      | tail b hm => exact h2 hm

/-- C3 witness: in the sample world, PID 101 resolves to `warp-terminal`,
which is in the default exemption set, so no termination request for 101 is
emitted. -/
theorem terminate_exempt_never_terminated_witness :
    Event.termRequest 101 ∉
      (terminate_gpu_processes sampleEnv 0 DEFAULT_EXEMPT_PROCESSES).1 :=
  (terminate_exempt_never_terminated sampleEnv 0 DEFAULT_EXEMPT_PROCESSES 101
    "warp-terminal" rfl rfl (by decide)).2

/-- C8: exemption matching is case-sensitive exact string match: for a
process whose name resolves, the per-PID outcome is `Skipped(exempt)` iff
the resolved name is literally a member of the exemption set; in particular
`"Warp-Terminal"` is not a member of the default set (which holds
`"warp-terminal"`), and a process with that name gets terminated. -/
theorem exemption_exact_match :
    (∀ (env : SysEnv) (ex : List String) (pid : Nat) (n : String),
       (env.proc pid).lookup = .ok () → (env.proc pid).name = .ok n →
       (((pidStep env ex pid).1.result = .skippedExempt) ↔ n ∈ ex)) ∧
    "Warp-Terminal" ∉ DEFAULT_EXEMPT_PROCESSES ∧
    (pidStep warpEnv DEFAULT_EXEMPT_PROCESSES 42).1.result =
      .terminated := by
  refine ⟨?_, ?_, ?_⟩
  · intro env ex pid n hl hn
    exact pidStep_skipped_iff env ex pid n hl hn
  · decide
  · rfl

/-- C8 witness: the process named `Warp-Terminal` is not skipped under the
default exemption set. -/
theorem exemption_exact_match_witness :
    ¬ (pidStep warpEnv DEFAULT_EXEMPT_PROCESSES 42).1.result =
        ProcResult.skippedExempt := by
  intro h
  have hiff := exemption_exact_match.1 warpEnv DEFAULT_EXEMPT_PROCESSES 42
    "Warp-Terminal" rfl rfl
  exact absurd (hiff.mp h) (by decide)

/-- C7: when the enumeration subprocess succeeds with empty output (stdout
whitespace-only, so `strip()` leaves nothing), `_terminate_gpu_processes`
treats it as a valid result: the outcome list is empty, no termination
request is emitted, and no error is raised. -/
theorem terminate_gpu_processes_empty_output (env : SysEnv) (i : Nat)
    (ex : List String) (s : String)
    (hq : env.query i = .ok s) (hs : pyStrip s.data = []) :
    terminate_gpu_processes env i ex = ([.enumerate i], .ok []) := by
  unfold terminate_gpu_processes
  rw [hq]
  dsimp only
  rw [hs]
  rfl

/-- C7 witness: a whitespace-only stdout yields no outcomes, no termination
requests and no error. -/
theorem terminate_gpu_processes_empty_output_witness :
    terminate_gpu_processes
      { query := fun _ => .ok " \n ", proc := sampleEnv.proc,
        torch := okTorch } 0 DEFAULT_EXEMPT_PROCESSES =
      ([.enumerate 0], .ok []) :=
  terminate_gpu_processes_empty_output _ 0 DEFAULT_EXEMPT_PROCESSES " \n "
    rfl (by decide)

/-- C4: with the torch runtime present and available, `_clear_gpu_cache`
runs the five reclamation calls sequentially inside one
`try/except RuntimeError`: a runtime failure never escapes — the result is
`ReclaimFailed` carrying the first failing step's message (or `cleared`
when none fails) — and the trace keeps every step attempted before the
failure, i.e. completed steps are not rolled back. -/
theorem clear_cache_failures_caught (st : GPUInfoState) (t : TorchEnv)
    (i : Nat) (h1 : st.torch_available = true)
    (h2 : st.torch_cuda_available = true) (h3 : t.cuda_is_available = true) :
    clear_gpu_cache st t i =
      (((cacheOps t i).map (fun p => Event.cacheStep p.1)).take
         (stepsAttempted ((cacheOps t i).map Prod.snd)),
       match firstErr ((cacheOps t i).map Prod.snd) with
       | some m => CacheResult.reclaimFailed m
       | none => CacheResult.cleared) := by
  unfold clear_gpu_cache
  rw [h1, h2, h3]
  simp only [Bool.and_self, if_true]
  rw [runSteps_eq]

/-- C4 witness: with a failing device-scoped release, the result is
`ReclaimFailed` with that message, and the completed global release stays
in the trace. -/
theorem clear_cache_failures_caught_witness :
    clear_gpu_cache sampleState failTorch 0 =
      ([.cacheStep .emptyCache, .cacheStep (.deviceEmptyCache 0)],
       .reclaimFailed "CUDA error: device busy") := by
  rw [clear_cache_failures_caught sampleState failTorch 0 rfl rfl rfl]
  rfl

/-- C6: with a valid device index, every run of `free_up_gpu` orders its
side effects as a (possibly empty) block of process-phase events
(enumeration and termination requests) followed by a (possibly empty) block
of cache-phase events: no cache-clearing action ever occurs before the
process-termination phase has completed. -/
theorem free_up_gpu_reap_before_cache (st : GPUInfoState) (env : SysEnv)
    (gpu_index : Int) (tp cc : Bool) (ex : List String)
    (h0 : 0 ≤ gpu_index) (h1 : gpu_index < (st.gpu_count : Int)) :
    ∃ evP evC, (free_up_gpu st env gpu_index tp cc ex).2.1 = evP ++ evC ∧
      (∀ e ∈ evP, e.isCache = false) ∧ (∀ e ∈ evC, e.isCache = true) := by
  have hcond : ¬(gpu_index < 0 ∨ gpu_index ≥ (st.gpu_count : Int)) := by
    push_neg
    exact ⟨by omega, by omega⟩
  unfold free_up_gpu
  rw [if_neg hcond]
  dsimp only
  have hp : ∀ e ∈ (if tp = true then
        terminate_gpu_processes env gpu_index.toNat ex
      else ([], Except.ok [])).1, e.isCache = false := by
    cases tp
    · simp
    · simpa using terminate_events_not_cache env gpu_index.toNat ex
  have hc : ∀ e ∈ (if cc = true then
        ((clear_gpu_cache st env.torch gpu_index.toNat).1,
         some (clear_gpu_cache st env.torch gpu_index.toNat).2)
      else ([], none)).1, e.isCache = true := by
    cases cc
    · simp
    · simpa using clear_events_cache st env.torch gpu_index.toNat
  cases hres : (if tp = true then
      terminate_gpu_processes env gpu_index.toNat ex
    else ([], Except.ok [])).2 with
  | error e =>
    refine ⟨_, [], (List.append_nil _).symm, hp, by simp⟩
  | ok os =>
    refine ⟨_, _, rfl, hp, hc⟩

/-- C6 witness: in the sample world, `free_up_gpu(0)` splits its trace into
a non-cache block followed by a cache block. -/
theorem free_up_gpu_reap_before_cache_witness :
    ∃ evP evC,
      (free_up_gpu sampleState sampleEnv 0 true true
        DEFAULT_EXEMPT_PROCESSES).2.1 = evP ++ evC ∧
      (∀ e ∈ evP, e.isCache = false) ∧ (∀ e ∈ evC, e.isCache = true) :=
  free_up_gpu_reap_before_cache sampleState sampleEnv 0 true true
    DEFAULT_EXEMPT_PROCESSES (by decide) (by decide)

/-- C10: when `nvmlInit` and every per-device query succeed,
`get_gpu_stats` returns a list of length `gpu_count` whose element at
position `i` carries index field `i` — snapshots in ascending device-index
order `0` through `gpu_count - 1`. -/
theorem get_gpu_stats_indices (st : GPUInfoState) (env : NvmlEnv)
    (hinit : env.init = .ok ())
    (hdev : ∀ j, j < st.gpu_count → ∃ d, env.device j = .ok d) :
    ∃ l, get_gpu_stats st env = .ok l ∧ l.length = st.gpu_count ∧
      ∀ k (hk : k < l.length), (l.get ⟨k, hk⟩).index = k := by
  unfold get_gpu_stats
  rw [hinit]
  dsimp only
  obtain ⟨l, h1, h2, h3⟩ := statsLoop_ok env st.gpu_count 0
    (fun j hj => by simpa using hdev j hj)
  exact ⟨l, h1, h2, fun k hk => by simpa using h3 k hk⟩

/-- C10 witness: on the sample driver with two devices, `get_gpu_stats`
returns a two-element list. -/
theorem get_gpu_stats_indices_witness :
    (get_gpu_stats sampleState sampleNvml).map List.length = .ok 2 := by
  obtain ⟨l, h1, h2, _⟩ := get_gpu_stats_indices sampleState sampleNvml rfl
    (fun j _ => ⟨_, rfl⟩)
  rw [h1]
  dsimp only [Except.map]
  rw [h2]
  rfl

end GpuInfo
